import Mathlib

/-
Verification of the staged caching pipeline in src/main.py: graph merge
precedence, reply-limit policy, harvest failure isolation, numeric coercion
of enrichment responses, schema-gated persistence, retry with exponential
backoff, the enrichment concurrency bound, stage idempotence, and the
projection stage as a non-destructive display filter.

Machine integers of the source are modelled as Nat or Int; JSON dictionaries
as insertion-ordered association lists (the semantics of a Python dict);
fallible code returns Except or Option.
-/

namespace Xscrape

/-- A graph member record: a JSON user dict keyed by its id field
(the value of user["id"] in src/main.py). `payload` stands for the
remaining profile fields of the dict, which the merge never inspects. -/
structure Identity where
  id : Nat
  payload : String
deriving DecidableEq, Repr

/-- Assignment d[u.id] = u into a Python dict, modelled on an
insertion-ordered association list: if the key is present its value is
replaced in place, otherwise the pair is appended at the end. This is the
semantics of one step of the comprehension at src/main.py:86. -/
def dictInsert : List (Nat × Identity) → Identity → List (Nat × Identity)
  | [], u => [(u.id, u)]
  | p :: m, u => if p.1 = u.id then (p.1, u) :: m else p :: dictInsert m u

/-- The dict comprehension at src/main.py:86:
follow_all_dict = (user.id : user for user in users), built left to right. -/
def dictOfUsers (users : List Identity) : List (Nat × Identity) :=
  users.foldl dictInsert []

/-- Lookup d[k] in the modelled Python dict. -/
def dictLookup (m : List (Nat × Identity)) (k : Nat) : Option Identity :=
  (m.find? (fun p => p.1 = k)).map (·.2)

/-- The merged map built by get_follow_all on a cache miss
(src/main.py:81-86): the source list is
followers ++ following ++ ([target] if include_self), folded into a dict. -/
def mergedMap (followers following : List Identity) (target_user : Identity)
    (include_self : Bool) : List (Nat × Identity) :=
  dictOfUsers (followers ++ following ++ (if include_self then [target_user] else []))

/-- The cache-miss branch of get_follow_all (src/main.py:80-91): the values
of the merged dict, in insertion order. -/
def get_follow_all (followers following : List Identity) (target_user : Identity)
    (include_self : Bool) : List Identity :=
  (mergedMap followers following target_user include_self).map (·.2)

/-- Spec-side reading of the merge invariant: iterate the concatenated
source list left to right and keep, for each id, the record from the latest
source that carries it. -/
def specLaterSourceWins (users : List Identity) (k : Nat) : Option Identity :=
  users.foldl (fun acc u => if u.id = k then some u else acc) none

/-- Lookup in a cache directory modelled as an association list from a
file key (the id or name embedded in the path) to the stored artifact. -/
def storeLookup {κ α : Type} [DecidableEq κ] (s : List (κ × α)) (k : κ) : Option α :=
  (s.find? (fun p => p.1 = k)).map (·.2)

/-- Writing a file into the cache directory: replace the artifact at the
key when present, otherwise add a new entry. -/
def storeWrite {κ α : Type} [DecidableEq κ] : List (κ × α) → κ → α → List (κ × α)
  | [], k, v => [(k, v)]
  | p :: s, k, v => if p.1 = k then (k, v) :: s else p :: storeWrite s k v

/-- A reply dict as fetched by the collaborator. `media` and `user` are the
heavyweight fields popped at src/main.py:118-119; `date` stands for the
parsed ISO timestamp. -/
structure Reply where
  id : Nat
  date : Nat
  rawContent : String
  likeCount : Int
  retweetCount : Int
  viewCount : Int
  possibly_sensitive : Bool
  media : Option String
  user : Option String
deriving DecidableEq, Repr

/-- A tweet dict as fetched by the collaborator (src/main.py:105-106),
with the `replies` field the harvester attaches at src/main.py:111-116.
`media` and `user` are popped at src/main.py:109-110. -/
structure Tweet where
  id : Nat
  date : Nat
  rawContent : String
  likeCount : Int
  retweetCount : Int
  viewCount : Int
  replyCount : Nat
  hashtags : List String
  mentionedUsers : List String
  links : List String
  possibly_sensitive : Bool
  media : Option String
  user : Option String
  replies : List Reply
deriving DecidableEq, Repr

/-- The profile fields of a member that the pipeline reads
(src/main.py:156-165). -/
structure Profile where
  id : Nat
  username : String
  rawDescription : String
  location : String
  created : String
  followersCount : Nat
  friendsCount : Nat
  statusesCount : Nat
  favouritesCount : Nat
  verified : Bool
  blue : Bool
deriving DecidableEq, Repr

/-- The per-member artifact written by get_user_data (src/main.py:121-124). -/
structure MemberArtifact where
  profile : Profile
  tweets : List Tweet
deriving DecidableEq, Repr

/-- Popping the heavyweight fields from a reply (src/main.py:117-119). -/
def stripReply (r : Reply) : Reply :=
  { r with media := none, user := none }

/-- The reply-attachment policy of get_user_data (src/main.py:111-116).
`repliesFor` is the collaborator api.tweet_replies as a function from tweet
id to its full reply stream; a call with limit=n yields the first n. -/
def fetchReplies (repliesFor : Nat → List Reply) (t : Tweet) (replies_limit : Int) :
    List Reply :=
  if replies_limit = -1 ∧ 0 < t.replyCount then repliesFor t.id
  else if 0 < replies_limit ∧ 0 < t.replyCount then
    (repliesFor t.id).take replies_limit.toNat
  else []

/-- Whether the loop body at src/main.py:111-114 performs a
tweet_replies collaborator call for this tweet. -/
def needsReplyFetch (t : Tweet) (replies_limit : Int) : Bool :=
  decide ((replies_limit = -1 ∧ 0 < t.replyCount)
    ∨ (0 < replies_limit ∧ 0 < t.replyCount))

/-- One iteration of the tweet loop at src/main.py:108-120: pop `media` and
`user`, attach the replies allowed by the limit, and strip each reply. -/
def processTweet (repliesFor : Nat → List Reply) (replies_limit : Int) (t : Tweet) :
    Tweet :=
  { t with media := none, user := none,
           replies := (fetchReplies repliesFor t replies_limit).map stripReply }

/-- Outcome of the api.user_tweets collaborator call for one member:
either the gathered tweet dicts or a raised exception. -/
inductive FetchOutcome where
  | fetched (tweets : List Tweet)
  | raised (msg : String)

/-- get_user_data (src/main.py:94-133): on a cache hit return the cached
artifact with no collaborator call; otherwise fetch, attach replies, strip
heavy fields, persist, and return the artifact — and on a raised collaborator
failure log and return none, leaving the store unchanged. The result is
(returned value, store after the call, number of collaborator calls). -/
def get_user_data (store : List (Nat × MemberArtifact)) (profile : Profile)
    (fetch : FetchOutcome) (repliesFor : Nat → List Reply) (replies_limit : Int) :
    Option MemberArtifact × List (Nat × MemberArtifact) × Nat :=
  match storeLookup store profile.id with
  | some cached => (some cached, store, 0)
  | none =>
    match fetch with
    | .raised _ => (none, store, 1)
    | .fetched tweets =>
      let artifact : MemberArtifact :=
        { profile := profile,
          tweets := tweets.map (processTweet repliesFor replies_limit) }
      (some artifact, storeWrite store profile.id artifact,
        1 + (tweets.filter (fun t => needsReplyFetch t replies_limit)).length)

/-- The member loop of main (src/main.py:489-501): harvest each member in
order, collect the successful artifacts in order, and count a skip for each
member whose harvest returned none. Returns
(user_datas, skipped_users, final store). -/
def mainHarvestLoop (repliesFor : Nat → List Reply) (replies_limit : Int) :
    List (Profile × FetchOutcome) → List (Nat × MemberArtifact) →
    List MemberArtifact × Nat × List (Nat × MemberArtifact)
  | [], store => ([], 0, store)
  | (p, f) :: rest, store =>
    match get_user_data store p f repliesFor replies_limit with
    | (res, store1, _) =>
      match mainHarvestLoop repliesFor replies_limit rest store1 with
      | (arts, skipped, store2) =>
        match res with
        | some a => (a :: arts, skipped, store2)
        | none => (arts, skipped + 1, store2)

/-- A concrete reply used in the worked examples. -/
def sampleReply (n : Nat) : Reply :=
  { id := n, date := n, rawContent := "ok", likeCount := 0, retweetCount := 0,
    viewCount := 0, possibly_sensitive := false, media := none, user := none }

/-- A concrete collaborator reply stream: every tweet has three replies. -/
def sampleRepliesFor : Nat → List Reply :=
  fun _ => [sampleReply 1, sampleReply 2, sampleReply 3]

/-- A concrete tweet with replyCount = 3. -/
def sampleTweet : Tweet :=
  { id := 7, date := 5, rawContent := "hello", likeCount := 1, retweetCount := 0,
    viewCount := 0, replyCount := 3, hashtags := [], mentionedUsers := [],
    links := [], possibly_sensitive := false, media := none, user := none,
    replies := [] }

/-- A concrete member profile with the given id. -/
def prof (n : Nat) : Profile :=
  { id := n, username := "member", rawDescription := "bio", location := "",
    created := "2020", followersCount := 0, friendsCount := 0,
    statusesCount := 0, favouritesCount := 0, verified := false, blue := false }

/-- The five-member batch of the partial-failure example: member 3 is the
only one whose collaborator fetch raises. -/
def fiveMemberBatch : List (Profile × FetchOutcome) :=
  [(prof 1, .fetched [sampleTweet]), (prof 2, .fetched []),
   (prof 3, .raised "timeout"), (prof 4, .fetched []),
   (prof 5, .fetched [sampleTweet])]

/-- A JSON value in a field of a top-post entry of an enrichment response:
null, an integer, or a string. -/
inductive JVal where
  | jnull
  | jint (n : Int)
  | jstr (s : String)
deriving DecidableEq, Repr

/-- Python post.get(k, 0) on a top-post JSON object (src/main.py:306-308):
the default 0 applies only when the key is absent, not when its value is
null. -/
def pyGetOr0 (post : List (String × JVal)) (k : String) : JVal :=
  match post.find? (fun p => p.1 = k) with
  | some kv => kv.2
  | none => .jint 0

/-- Python int(v): the identity on an integer, a parse of a decimal string,
and a raised TypeError on None. -/
def pyInt : JVal → Except String Int
  | .jnull => .error "TypeError: int of NoneType"
  | .jint n => .ok n
  | .jstr s =>
    match s.toInt? with
    | some n => .ok n
    | none => .error "ValueError: invalid literal for int"

/-- One assignment post[k] = int(post.get(k, 0)) of the normalization loop
(src/main.py:306-308); a raised exception aborts the normalization. -/
def coerceField (post : List (String × JVal)) (k : String) :
    Except String (List (String × JVal)) :=
  match pyInt (pyGetOr0 post k) with
  | .ok n => .ok (storeWrite post k (.jint n))
  | .error e => .error e

/-- The body of the top-posts normalization loop (src/main.py:305-308):
coerce likes, then retweets, then views. -/
def normalizeTopPost (post : List (String × JVal)) :
    Except String (List (String × JVal)) := do
  let post1 ← coerceField post "likes"
  let post2 ← coerceField post1 "retweets"
  coerceField post2 "views"

/-- The loop over all entries of engagement.top_posts (src/main.py:305);
the first raised exception aborts. -/
def normalizeTopPosts (posts : List (List (String × JVal))) :
    Except String (List (List (String × JVal))) :=
  posts.mapM normalizeTopPost

/-- The parsed JSON enrichment response, restricted to the parts the
orchestrator inspects: the username field (none when the key is absent),
the engagement.top_posts list when that path is present, and the remaining
sections of the response, which the normalization never touches. -/
structure RawAvatar where
  username : Option JVal
  top_posts : Option (List (List (String × JVal)))
  rest : List (String × JVal)
deriving DecidableEq, Repr

/-- The normalization step at src/main.py:303-308: when the response has an
engagement dict with a top_posts key, coerce the numeric fields of every
entry; otherwise leave the response as it is. -/
def normalizeAvatar (a : RawAvatar) : Except String RawAvatar :=
  match a.top_posts with
  | none => .ok a
  | some posts =>
    match normalizeTopPosts posts with
    | .ok ps => .ok { a with top_posts := some ps }
    | .error e => .error e

/-- Whether an Option holds an integer JSON value that is at least 0. -/
def isNonnegInt : Option JVal → Bool
  | some (.jint n) => decide (0 ≤ n)
  | _ => false

/-- Whether an Option holds a string JSON value. -/
def isStr : Option JVal → Bool
  | some (.jstr _) => true
  | _ => false

/-- The pydantic TopPost check (src/main.py:21-26): rawContent and date are
required strings, and likes, retweets and views are required integers
constrained to be at least 0. -/
def validTopPost (post : List (String × JVal)) : Bool :=
  isStr (storeLookup post "rawContent") && isNonnegInt (storeLookup post "likes")
    && isNonnegInt (storeLookup post "retweets")
    && isNonnegInt (storeLookup post "views")
    && isStr (storeLookup post "date")

/-- The Avatar validation at src/main.py:311, restricted to the modelled
fields: username must be a present string and every entry of a present
top_posts list a valid TopPost. The engagement dict has free-form keys, so
a response without a top_posts path passes this part; the shape checks of
the other sections do not bear on any claim and are not modelled. -/
def validateAvatar (a : RawAvatar) : Bool :=
  isStr a.username
    && (match a.top_posts with
        | some posts => posts.all validTopPost
        | none => true)

/-- Per-member terminal outcome of one process_user call: a verified cache
hit (return None at src/main.py:236), a persisted success
(src/main.py:313-317), or a permanent validation failure
(src/main.py:318-322). A raised exception is the error case of the
containing Except. -/
inductive PUOutcome where
  | cachedDone
  | succeeded (a : RawAvatar)
  | failedValidation
deriving DecidableEq, Repr

/-- One invocation of the body of process_user (src/main.py:224-327) for
the member with the given id. The avatar store maps member id to the parse
result of the stored file: some a when the file parses to a, none when the
file exists but json.load raises on it. The response argument is the
outcome of the generation-collaborator call. Result: (outcome or raised
exception, avatar store after the call, number of generation calls). -/
def process_user (store : List (Nat × Option RawAvatar)) (uid : Nat)
    (response : Except String RawAvatar) :
    Except String PUOutcome × List (Nat × Option RawAvatar) × Nat :=
  match storeLookup store uid with
  | some (some _) => (.ok .cachedDone, store, 0)
  | some none => (.error "JSONDecodeError", store, 0)
  | none =>
    match response with
    | .error e => (.error e, store, 1)
    | .ok raw =>
      match normalizeAvatar raw with
      | .error e => (.error e, store, 1)
      | .ok nraw =>
        if validateAvatar nraw then
          (.ok (.succeeded nraw), storeWrite store uid (some nraw), 1)
        else
          (.ok .failedValidation, store, 1)

/-- Recursion of the backoff decorator: r attempts remain, k attempts were
already made, elapsed is the accumulated wait. On an exception the call is
retried after a wait of 2 ^ k, unless this was the last allowed attempt or
the accumulated wait would reach max_time, in which case the exception
propagates. -/
def backoffAux {α : Type} (attempt : Nat → Except String α) (maxTime : Nat) :
    Nat → Nat → Nat → Except String α × Nat × Nat
  | 0, k, elapsed => (.error "backoff: no tries", k, elapsed)
  | r + 1, k, elapsed =>
    match attempt k with
    | .ok a => (.ok a, k + 1, elapsed)
    | .error e =>
      if r = 0 then (.error e, k + 1, elapsed)
      else if maxTime ≤ elapsed + 2 ^ k then (.error e, k + 1, elapsed)
      else backoffAux attempt maxTime r (k + 1) (elapsed + 2 ^ k)

/-- The backoff.on_exception(backoff.expo, Exception, max_tries, max_time)
wrapper of process_user (src/main.py:218-223): waits 1, 2, 4, ... seconds
between attempts (expo with base 2, factor 1), gives up after max_tries
attempts or once the accumulated wait reaches max_time. Returns
(final result, attempts made, accumulated wait). -/
def backoffRun {α : Type} (maxTries maxTime : Nat)
    (attempt : Nat → Except String α) : Except String α × Nat × Nat :=
  backoffAux attempt maxTime maxTries 0 0

/-- The result loop of generate_avatars (src/main.py:334-340): gather with
return_exceptions collects one result per member task, and each result that
is an exception increments failed_users. -/
def countFailedResults (rs : List (Except String PUOutcome)) : Nat :=
  rs.foldl (fun n r => match r with | .error _ => n + 1 | .ok _ => n) 0

/-- A concrete enrichment response whose only top-post entry carries
views: null alongside ordinary values for the other fields. -/
def nullViewsAvatar : RawAvatar :=
  { username := some (.jstr "member"),
    top_posts := some [[("rawContent", .jstr "x"), ("likes", .jint 5),
      ("retweets", .jint 2), ("views", .jnull), ("date", .jstr "2024-01-01")]],
    rest := [] }

/-- A concrete enrichment response that fails the schema validation:
the username field is null rather than a string, and normalization leaves
it untouched (no top_posts path). -/
def invalidAvatar : RawAvatar :=
  { username := some .jnull, top_posts := none, rest := [] }

/-- A concrete enrichment response that passes normalization and
validation: the views field is absent and is defaulted to 0. -/
def validRawAvatar : RawAvatar :=
  { username := some (.jstr "member"),
    top_posts := some [[("rawContent", .jstr "x"), ("likes", .jint 5),
      ("retweets", .jint 2), ("date", .jstr "2024-01-01")]],
    rest := [] }

/-- The normalization of validRawAvatar: the missing views field has been
defaulted to 0 and appended by the assignment post[k] = int(...). -/
def validRawAvatarNorm : RawAvatar :=
  { username := some (.jstr "member"),
    top_posts := some [[("rawContent", .jstr "x"), ("likes", .jint 5),
      ("retweets", .jint 2), ("date", .jstr "2024-01-01"), ("views", .jint 0)]],
    rest := [] }

/-- Observable state of the enrichment fan-out in generate_avatars:
holders counts the tasks currently inside the semaphore block
(src/main.py:238), inFlight counts the generation calls currently awaited
(src/main.py:245), pending counts the member tasks not yet started. -/
structure EnrichState where
  holders : Nat
  inFlight : Nat
  pending : Nat
deriving DecidableEq, Repr

/-- The interleaving steps of the enrichment tasks. startTask: a pending
task enters the semaphore block, which asyncio.Semaphore(max_concurrent)
permits only while fewer than maxConcurrent tasks hold a slot. callStart:
a slot-holding task that is not already awaiting its call submits its
generation call (the await at src/main.py:245 happens inside the semaphore
block, so each holder has at most one call in flight and calls happen only
while holding a slot). callEnd: an awaited call returns. release: a task
whose call is not in flight leaves the semaphore block. -/
inductive EStep (maxConcurrent : Nat) : EnrichState → EnrichState → Prop
  | startTask (s : EnrichState) :
      0 < s.pending → s.holders < maxConcurrent →
      EStep maxConcurrent s ⟨s.holders + 1, s.inFlight, s.pending - 1⟩
  | callStart (s : EnrichState) :
      s.inFlight < s.holders →
      EStep maxConcurrent s ⟨s.holders, s.inFlight + 1, s.pending⟩
  | callEnd (s : EnrichState) :
      0 < s.inFlight →
      EStep maxConcurrent s ⟨s.holders, s.inFlight - 1, s.pending⟩
  | release (s : EnrichState) :
      s.inFlight < s.holders →
      EStep maxConcurrent s ⟨s.holders - 1, s.inFlight, s.pending⟩

/-- States reachable by the enrichment run that starts with n pending
member tasks, no held slot and no call in flight. -/
def EnrichReachable (maxConcurrent n : Nat) (s : EnrichState) : Prop :=
  Relation.ReflTransGen (EStep maxConcurrent) ⟨0, 0, n⟩ s

/-- get_followers (src/main.py:45-57): a cache hit loads the stored list
with no collaborator call; a miss gathers from the collaborator, persists
the list and returns it. get_following (src/main.py:60-72) is the same
function applied to its own cache key. Result: (returned list, store after
the call, number of collaborator calls). -/
def get_followers (store : List (String × List Identity)) (cache_file : String)
    (fetched : List Identity) :
    List Identity × List (String × List Identity) × Nat :=
  match storeLookup store cache_file with
  | some cached => (cached, store, 0)
  | none => (fetched, storeWrite store cache_file fetched, 1)

/-- The caching wrapper of get_follow_all (src/main.py:75-91): a hit loads
the stored union; a miss computes the union — no collaborator call either
way — and persists it. -/
def get_follow_all_stage (store : List (String × List Identity))
    (cache_file : String) (followers following : List Identity)
    (target_user : Identity) (include_self : Bool) :
    List Identity × List (String × List Identity) × Nat :=
  match storeLookup store cache_file with
  | some cached => (cached, store, 0)
  | none =>
    (get_follow_all followers following target_user include_self,
     storeWrite store cache_file
       (get_follow_all followers following target_user include_self), 0)

/-- One file of the output/users directory: a member-data JSON file or a
rendered markdown file. The key of an entry is (member id, isMd), since
aggregate_to_markdown derives the markdown name from the JSON name by
replacing the extension (src/main.py:192). -/
inductive FileEntry where
  | jsonEntry (a : MemberArtifact)
  | mdEntry (s : String)
deriving DecidableEq, Repr

/-- Python str(", ").join. -/
def joinComma : List String → String
  | [] => ""
  | [s] => s
  | s :: rest => s ++ ", " ++ joinComma rest

/-- The profile header block of the markdown render (src/main.py:156-165). -/
def renderProfileHeader (p : Profile) : String :=
  "# Profile: @" ++ p.username ++ "\n"
    ++ "Bio: " ++ p.rawDescription ++ "\n"
    ++ "Location: " ++ p.location ++ "\n"
    ++ "Joined: " ++ p.created ++ "\n"
    ++ "Followers: " ++ toString p.followersCount ++ "\n"
    ++ "Following: " ++ toString p.friendsCount ++ "\n"
    ++ "Tweets: " ++ toString p.statusesCount ++ "\n"
    ++ "Likes: " ++ toString p.favouritesCount ++ "\n"
    ++ "Verified: " ++ toString p.verified ++ "\n"
    ++ "Blue: " ++ toString p.blue ++ "\n\n"

/-- The block one qualifying reply contributes (src/main.py:186-190). -/
def renderReply (r : Reply) : String :=
  "## Reply at " ++ toString r.date ++ " (likes: " ++ toString r.likeCount
    ++ ", retweets: " ++ toString r.retweetCount ++ ", views: "
    ++ toString r.viewCount ++ ")\n" ++ r.rawContent ++ "\n"
    ++ (if r.possibly_sensitive then "(Possibly sensitive)\n" else "")
    ++ "\n"

/-- The reply loop under one qualifying post (src/main.py:183-190): a reply
is rendered exactly when its likeCount is at least min_likes_replies.
Returns (rendered text, number of included replies). -/
def renderRepliesLoop (minR : Int) : List Reply → String × Nat
  | [] => ("", 0)
  | r :: rs =>
    let rest := renderRepliesLoop minR rs
    if minR ≤ r.likeCount then (renderReply r ++ rest.1, rest.2 + 1) else rest

/-- The block one qualifying post contributes (src/main.py:172-190),
including its reply blocks. Returns (text, number of included replies). -/
def renderTweetBlock (username : String) (t : Tweet) (minR : Int) : String × Nat :=
  let replies := renderRepliesLoop minR t.replies
  ("# Post by @" ++ username ++ " at " ++ toString t.date ++ " (likes: "
      ++ toString t.likeCount ++ ", retweets: " ++ toString t.retweetCount
      ++ ", replies: " ++ toString t.replyCount ++ ", views: "
      ++ toString t.viewCount ++ ")\n"
    ++ t.rawContent ++ "\n"
    ++ (if t.hashtags ≠ [] then "Hashtags: " ++ joinComma t.hashtags ++ "\n" else "")
    ++ (if t.mentionedUsers ≠ [] then
          "Mentions: " ++ joinComma (t.mentionedUsers.map (fun u => "@" ++ u)) ++ "\n"
        else "")
    ++ (if t.links ≠ [] then "Links: " ++ joinComma t.links ++ "\n" else "")
    ++ (if t.possibly_sensitive then "(Possibly sensitive)\n" else "")
    ++ "\n" ++ replies.1, replies.2)

/-- The post loop of aggregate_to_markdown (src/main.py:169-190): a post
contributes a block exactly when its likeCount is at least min_likes_posts;
lower-engagement posts are omitted entirely, including their replies.
Returns (text, included posts, included replies). -/
def renderPostsLoop (username : String) (minP minR : Int) :
    List Tweet → String × Nat × Nat
  | [] => ("", 0, 0)
  | t :: ts =>
    let rest := renderPostsLoop username minP minR ts
    if minP ≤ t.likeCount then
      let block := renderTweetBlock username t minR
      (block.1 ++ rest.1, rest.2.1 + 1, rest.2.2 + block.2)
    else rest

/-- Stable insertion of a tweet into a list sorted by date descending:
the inserted tweet goes before the first strictly older entry, after
entries with an equal date (it preceded them in the original order). -/
def insertByDateDesc (t : Tweet) : List Tweet → List Tweet
  | [] => [t]
  | u :: us => if u.date ≤ t.date then t :: u :: us else u :: insertByDateDesc t us

/-- Python sorted(tweets, key=date, reverse=True) at src/main.py:153:
a stable sort, newest first. -/
def sortByDateDesc : List Tweet → List Tweet
  | [] => []
  | t :: ts => insertByDateDesc t (sortByDateDesc ts)

/-- The full markdown document for one member artifact
(src/main.py:152-190): profile header, then the qualifying posts of the
date-sorted tweet list. Returns (text, included posts, included replies). -/
def renderMember (a : MemberArtifact) (minP minR : Int) : String × Nat × Nat :=
  let body := renderPostsLoop a.profile.username minP minR (sortByDateDesc a.tweets)
  (renderProfileHeader a.profile ++ body.1, body.2.1, body.2.2)

/-- The JSON files of the users directory, the inputs of the render loop
at src/main.py:142-143. -/
def jsonEntriesOf (s : List ((Nat × Bool) × FileEntry)) :
    List (Nat × MemberArtifact) :=
  s.filterMap (fun kv =>
    match kv with
    | ((uid, false), .jsonEntry a) => some (uid, a)
    | _ => none)

/-- aggregate_to_markdown (src/main.py:136-204): for every JSON member
artifact in the directory, render its markdown document and write it to
the sibling markdown file name; JSON files are only read. -/
def aggregate_to_markdown (s : List ((Nat × Bool) × FileEntry)) (minP minR : Int) :
    List ((Nat × Bool) × FileEntry) :=
  (jsonEntriesOf s).foldl
    (fun acc ua =>
      storeWrite acc (ua.1, true) (.mdEntry (renderMember ua.2 minP minR).1)) s

/-- A concrete member artifact whose only post has likeCount 1. -/
def sampleArtifact : MemberArtifact :=
  { profile := prof 1, tweets := [sampleTweet] }

end Xscrape

namespace Xscrape

theorem dictLookup_dictInsert (m : List (Nat × Identity)) (u : Identity) (k : Nat) :
    dictLookup (dictInsert m u) k = if u.id = k then some u else dictLookup m k := by
  induction m with
  | nil =>
    by_cases h : u.id = k <;> simp [dictInsert, dictLookup, List.find?, h]
  | cons p m ih =>
    obtain ⟨pk, pv⟩ := p
    by_cases hp : pk = u.id
    · subst hp
      by_cases h : u.id = k <;> simp [dictInsert, dictLookup, List.find?, h]
    · by_cases hk : pk = k
      · have h : ¬ (u.id = k) := fun hh => hp (by rw [hk, hh])
        have hku : ¬ (k = u.id) := fun hh => h (hh.symm)
        simp [dictInsert, dictLookup, List.find?, hp, hk, h, hku]
      · by_cases h : u.id = k <;>
          simpa [dictInsert, dictLookup, List.find?, hp, hk, h] using ih

theorem dictLookup_foldl (l : List Identity) (m : List (Nat × Identity)) (k : Nat) :
    dictLookup (l.foldl dictInsert m) k
      = l.foldl (fun acc u => if u.id = k then some u else acc) (dictLookup m k) := by
  induction l generalizing m with
  | nil => rfl
  | cons u l ih =>
    simp only [List.foldl_cons]
    rw [ih, dictLookup_dictInsert]

theorem dictLookup_dictOfUsers (l : List Identity) (k : Nat) :
    dictLookup (dictOfUsers l) k = specLaterSourceWins l k := by
  simpa [dictOfUsers, specLaterSourceWins, dictLookup, List.find?]
    using dictLookup_foldl l [] k

/-- C1: get_follow_all on a cache miss builds followers ++ following ++
([target] if include_self) and folds it left to right into a map keyed by
id where later entries overwrite earlier ones; the record from the later
source wins on an id collision, the included target wins over any graph
member with its id, and the concrete merge of followers [(1, f)],
following [(1, g), (2, g2)], target (1, self) with include_self = true
is the map sending 1 to (1, self) and 2 to (2, g2). -/
theorem get_follow_all_merge_precedence :
    (∀ (followers following : List Identity) (target : Identity) (b : Bool) (k : Nat),
        dictLookup (mergedMap followers following target b) k
          = specLaterSourceWins
              (followers ++ following ++ (if b then [target] else [])) k)
    ∧ (∀ (followers following : List Identity) (target : Identity),
        dictLookup (mergedMap followers following target true) target.id = some target)
    ∧ get_follow_all [⟨1, "f"⟩] [⟨1, "g"⟩, ⟨2, "g2"⟩] ⟨1, "self"⟩ true
        = [⟨1, "self"⟩, ⟨2, "g2"⟩]
    ∧ dictLookup (mergedMap [⟨1, "f"⟩] [⟨1, "g"⟩, ⟨2, "g2"⟩] ⟨1, "self"⟩ true) 1
        = some ⟨1, "self"⟩
    ∧ dictLookup (mergedMap [⟨1, "f"⟩] [⟨1, "g"⟩, ⟨2, "g2"⟩] ⟨1, "self"⟩ true) 2
        = some ⟨2, "g2"⟩ := by
  refine ⟨?_, ?_, by decide, by decide, by decide⟩
  · intro followers following target b k
    exact dictLookup_dictOfUsers _ k
  · intro followers following target
    rw [mergedMap, dictLookup_dictOfUsers]
    simp [specLaterSourceWins, List.foldl_append]

/-- C3: the harvester attaches replies by the limit policy of
src/main.py:111-116 — with replyCount > 0, replies_limit = -1 fetches all
replies and a positive limit fetches at most that many (the first
limit-many of the stream); replies_limit = 0 attaches none even when
replyCount > 0. Concretely, with replyCount = 3 and three available
replies, limit -1 yields 3, limit 2 yields exactly 2, limit 0 yields []. -/
theorem get_user_data_reply_limit_policy :
    (∀ (repliesFor : Nat → List Reply) (t : Tweet),
        0 < t.replyCount → fetchReplies repliesFor t (-1) = repliesFor t.id)
    ∧ (∀ (repliesFor : Nat → List Reply) (t : Tweet) (l : Int),
        0 < l → 0 < t.replyCount →
          fetchReplies repliesFor t l = (repliesFor t.id).take l.toNat
          ∧ (fetchReplies repliesFor t l).length ≤ l.toNat)
    ∧ (∀ (repliesFor : Nat → List Reply) (t : Tweet),
        fetchReplies repliesFor t 0 = [])
    ∧ (∀ (repliesFor : Nat → List Reply) (l : Int) (t : Tweet),
        (processTweet repliesFor l t).replies
          = (fetchReplies repliesFor t l).map stripReply)
    ∧ (fetchReplies sampleRepliesFor sampleTweet (-1)).length = 3
    ∧ (fetchReplies sampleRepliesFor sampleTweet 2).length = 2
    ∧ fetchReplies sampleRepliesFor sampleTweet 0 = [] := by
  refine ⟨?_, ?_, ?_, ?_, by decide, by decide, by decide⟩
  · intro repliesFor t h
    simp [fetchReplies, h]
  · intro repliesFor t l hl h
    have hne : ¬ (l = -1) := by omega
    constructor
    · simp [fetchReplies, hne, hl, h]
    · simp [fetchReplies, hne, hl, h]
  · intro repliesFor t
    simp [fetchReplies]
  · intro repliesFor l t
    rfl

/-- Witness for C3 at the concrete tweet with three replies. -/
theorem get_user_data_reply_limit_policy_witness :
    fetchReplies sampleRepliesFor sampleTweet (-1)
      = sampleRepliesFor sampleTweet.id :=
  get_user_data_reply_limit_policy.1 sampleRepliesFor sampleTweet (by decide)

/-- C4: a raised collaborator fetch for one member makes get_user_data
return none with the store unchanged, the member loop of main counts the
skip and continues, every member is processed, and in the concrete
five-member batch where only member 3 raises the run yields 4 artifacts
and 1 skip with no exception escaping (the loop is a total function). -/
theorem harvest_partial_failure_isolation :
    (∀ (store : List (Nat × MemberArtifact)) (p : Profile) (msg : String)
        (repliesFor : Nat → List Reply) (l : Int),
        storeLookup store p.id = none →
          get_user_data store p (.raised msg) repliesFor l = (none, store, 1))
    ∧ (∀ (repliesFor : Nat → List Reply) (l : Int)
        (members : List (Profile × FetchOutcome)) (store : List (Nat × MemberArtifact)),
        (mainHarvestLoop repliesFor l members store).1.length
            + (mainHarvestLoop repliesFor l members store).2.1 = members.length)
    ∧ (mainHarvestLoop sampleRepliesFor 5 fiveMemberBatch []).1.length = 4
    ∧ (mainHarvestLoop sampleRepliesFor 5 fiveMemberBatch []).2.1 = 1 := by
  refine ⟨?_, ?_, by decide, by decide⟩
  · intro store p msg repliesFor l h
    simp [get_user_data, h]
  · intro repliesFor l members
    induction members with
    | nil => intro store; simp [mainHarvestLoop]
    | cons pf rest ih =>
      intro store
      obtain ⟨p, f⟩ := pf
      simp only [mainHarvestLoop]
      rcases hg : get_user_data store p f repliesFor l with ⟨res, store1, n⟩
      rcases hm : mainHarvestLoop repliesFor l rest store1 with ⟨arts, skipped, store2⟩
      have hrec := ih store1
      rw [hm] at hrec
      cases res <;> simp_all <;> omega

/-- Witness for C4 at a concrete member with an empty store. -/
theorem harvest_partial_failure_isolation_witness :
    get_user_data [] (prof 3) (.raised "timeout") sampleRepliesFor 5
      = (none, [], 1) :=
  harvest_partial_failure_isolation.1 [] (prof 3) "timeout" sampleRepliesFor 5 (by decide)

theorem storeLookup_storeWrite {κ α : Type} [DecidableEq κ]
    (s : List (κ × α)) (k : κ) (v : α) (k2 : κ) :
    storeLookup (storeWrite s k v) k2
      = if k = k2 then some v else storeLookup s k2 := by
  induction s with
  | nil => by_cases h : k = k2 <;> simp [storeWrite, storeLookup, List.find?, h]
  | cons p s ih =>
    obtain ⟨pk, pv⟩ := p
    by_cases hp : pk = k
    · subst hp
      by_cases h : pk = k2 <;> simp [storeWrite, storeLookup, List.find?, h]
    · by_cases hk : pk = k2
      · have h : ¬ (k = k2) := fun hh => hp (hk.trans hh.symm)
        have hku : ¬ (k2 = k) := fun hh => h (hh.symm)
        simp [storeWrite, storeLookup, List.find?, hp, hk, h, hku]
      · by_cases h : k = k2 <;>
          simpa [storeWrite, storeLookup, List.find?, hp, hk, h] using ih

theorem backoffAux_attempts_le {α : Type} (attempt : Nat → Except String α)
    (maxTime : Nat) : ∀ (r k elapsed : Nat),
    (backoffAux attempt maxTime r k elapsed).2.1 ≤ k + r := by
  intro r
  induction r with
  | zero => intro k e; simp [backoffAux]
  | succ r ih =>
    intro k e
    simp only [backoffAux]
    cases attempt k with
    | ok a => simp
    | error msg =>
      by_cases hr : r = 0
      · simp [hr]
      · by_cases ht : maxTime ≤ e + 2 ^ k
        · simp [hr, ht]
        · simp only [hr, ht, if_false]
          have := ih (k + 1) (e + 2 ^ k)
          omega

theorem backoffAux_elapsed_lt {α : Type} (attempt : Nat → Except String α)
    (maxTime : Nat) : ∀ (r k elapsed : Nat), elapsed < maxTime →
    (backoffAux attempt maxTime r k elapsed).2.2 < maxTime := by
  intro r
  induction r with
  | zero => intro k e he; simpa [backoffAux] using he
  | succ r ih =>
    intro k e he
    simp only [backoffAux]
    cases attempt k with
    | ok a => simpa using he
    | error msg =>
      by_cases hr : r = 0
      · simpa [hr] using he
      · by_cases ht : maxTime ≤ e + 2 ^ k
        · simpa [hr, ht] using he
        · simp only [hr, ht, if_false]
          exact ih (k + 1) (e + 2 ^ k) (by omega)

theorem backoffAux_all_fail {α : Type} (attempt : Nat → Except String α)
    (maxTime : Nat) (hfail : ∀ k, ∃ e, attempt k = .error e) :
    ∀ (r k elapsed : Nat),
      ∃ e, (backoffAux attempt maxTime r k elapsed).1 = .error e := by
  intro r
  induction r with
  | zero => intro k e; exact ⟨"backoff: no tries", rfl⟩
  | succ r ih =>
    intro k e
    obtain ⟨msg, hmsg⟩ := hfail k
    simp only [backoffAux, hmsg]
    by_cases hr : r = 0
    · exact ⟨msg, by simp [hr]⟩
    · by_cases ht : maxTime ≤ e + 2 ^ k
      · exact ⟨msg, by simp [hr, ht]⟩
      · simpa only [hr, ht, if_false] using ih (k + 1) (e + 2 ^ k)

theorem backoffRun_const_error {α : Type} (e : String) :
    backoffRun (α := α) 5 300 (fun _ => .error e) = (.error e, 5, 15) := rfl

/-- C2: the claim says a top-post entry with views null is coerced to
views 0 and persisted; the code computes int(post.get("views", 0)) at
src/main.py:308, whose default applies only to a missing key, so an
explicit null reaches int(None) and raises TypeError — the response is
rejected (re-raised for the retry wrapper) and nothing is persisted. A
missing views key, by contrast, is coerced to 0 as the claim says. -/
theorem top_posts_null_views_rejected :
    normalizeTopPost [("rawContent", .jstr "x"), ("likes", .jint 5),
        ("retweets", .jint 2), ("views", .jnull), ("date", .jstr "2024-01-01")]
      = .error "TypeError: int of NoneType"
    ∧ normalizeAvatar nullViewsAvatar = .error "TypeError: int of NoneType"
    ∧ (process_user [] 42 (.ok nullViewsAvatar)).1
        = .error "TypeError: int of NoneType"
    ∧ (process_user [] 42 (.ok nullViewsAvatar)).2.1 = []
    ∧ normalizeTopPost [("rawContent", .jstr "x"), ("likes", .jint 5),
        ("retweets", .jint 2), ("date", .jstr "2024-01-01")]
      = .ok [("rawContent", .jstr "x"), ("likes", .jint 5),
          ("retweets", .jint 2), ("date", .jstr "2024-01-01"),
          ("views", .jint 0)] :=
  ⟨rfl, rfl, rfl, rfl, rfl⟩

/-- C5: process_user persists an avatar only when validation passes — a
store whose entries are all schema-valid stays that way through any call —
and a response whose normalized form fails validation yields the permanent
failure outcome with the store unchanged and no exception, so the backoff
wrapper makes exactly one attempt (no retry) and the run continues. -/
theorem avatar_schema_gated_persistence :
    (∀ (store : List (Nat × Option RawAvatar)) (uid : Nat)
        (response : Except String RawAvatar),
        (∀ k a, storeLookup store k = some (some a) → validateAvatar a = true) →
        ∀ k a, storeLookup (process_user store uid response).2.1 k = some (some a) →
          validateAvatar a = true)
    ∧ (∀ (store : List (Nat × Option RawAvatar)) (uid : Nat)
        (raw nraw : RawAvatar),
        storeLookup store uid = none →
        normalizeAvatar raw = .ok nraw →
        validateAvatar nraw = false →
          process_user store uid (.ok raw) = (.ok .failedValidation, store, 1)
          ∧ (backoffRun 5 300
              (fun _ => (process_user store uid (.ok raw)).1)).2.1 = 1) := by
  constructor
  · intro store uid response hinv k a hk
    cases h1 : storeLookup store uid with
    | some av =>
      cases av with
      | some x =>
        simp only [process_user, h1] at hk
        exact hinv k a hk
      | none =>
        simp only [process_user, h1] at hk
        exact hinv k a hk
    | none =>
      cases response with
      | error e =>
        simp only [process_user, h1] at hk
        exact hinv k a hk
      | ok raw =>
        cases h2 : normalizeAvatar raw with
        | error e =>
          simp only [process_user, h1, h2] at hk
          exact hinv k a hk
        | ok nraw =>
          by_cases h3 : validateAvatar nraw = true
          · simp only [process_user, h1, h2] at hk
            rw [if_pos h3] at hk
            simp only at hk
            rw [storeLookup_storeWrite] at hk
            by_cases h4 : uid = k
            · rw [if_pos h4] at hk
              obtain rfl : nraw = a := by
                simpa using hk
              exact h3
            · rw [if_neg h4] at hk
              exact hinv k a hk
          · simp only [process_user, h1, h2] at hk
            rw [if_neg h3] at hk
            exact hinv k a hk
  · intro store uid raw nraw h1 h2 h3
    have hpu : process_user store uid (.ok raw)
        = (.ok .failedValidation, store, 1) := by
      simp [process_user, h1, h2, h3]
    refine ⟨hpu, ?_⟩
    rw [hpu]
    rfl

/-- Witness for C5: a valid response is persisted schema-valid, and the
concrete invalid response fails permanently in one attempt. -/
theorem avatar_schema_gated_persistence_witness :
    validateAvatar validRawAvatarNorm = true
    ∧ process_user [] 7 (.ok invalidAvatar) = (.ok .failedValidation, [], 1)
    ∧ (backoffRun 5 300
        (fun _ => (process_user [] 7 (.ok invalidAvatar)).1)).2.1 = 1 :=
  ⟨avatar_schema_gated_persistence.1 [] 7 (.ok validRawAvatar)
      (fun _ _ h => Option.noConfusion h) 7 validRawAvatarNorm rfl,
   (avatar_schema_gated_persistence.2 [] 7 invalidAvatar invalidAvatar
      rfl rfl rfl).1,
   (avatar_schema_gated_persistence.2 [] 7 invalidAvatar invalidAvatar
      rfl rfl rfl).2⟩

/-- C10: a cached avatar file that exists but does not parse makes the
cache-hit verification raise, so process_user neither regenerates the
avatar (0 generation calls) nor reaches Done; the backoff wrapper retries
the whole routine against the same unchanged store and after exhausting
its 5 tries (waiting 1+2+4+8 = 15 seconds) the member is reported as a
failure while the corrupt entry is left in place. -/
theorem corrupt_avatar_cache_permanent_failure :
    ∀ (store : List (Nat × Option RawAvatar)) (uid : Nat)
      (resp : Nat → Except String RawAvatar),
      storeLookup store uid = some none →
        (∀ r, process_user store uid r = (.error "JSONDecodeError", store, 0))
        ∧ backoffRun 5 300 (fun k => (process_user store uid (resp k)).1)
            = (.error "JSONDecodeError", 5, 15)
        ∧ countFailedResults
            [(backoffRun 5 300 (fun k => (process_user store uid (resp k)).1)).1]
          = 1 := by
  intro store uid resp h
  have ha : ∀ r, process_user store uid r = (.error "JSONDecodeError", store, 0) := by
    intro r
    simp [process_user, h]
  have hconst : (fun k => (process_user store uid (resp k)).1)
      = (fun _ => (.error "JSONDecodeError" : Except String PUOutcome)) :=
    funext fun k => by rw [ha (resp k)]
  refine ⟨ha, ?_, ?_⟩
  · rw [hconst]
    exact backoffRun_const_error _
  · rw [hconst, backoffRun_const_error]
    rfl

theorem countFailedResults_shift :
    ∀ (rs : List (Except String PUOutcome)) (n : Nat),
      rs.foldl (fun m r => match r with | .error _ => m + 1 | .ok _ => m) n
        = n + countFailedResults rs := by
  intro rs
  induction rs with
  | nil => intro n; simp [countFailedResults]
  | cons r rs ih =>
    intro n
    cases r with
    | error e =>
      show rs.foldl (fun m r => match r with | .error _ => m + 1 | .ok _ => m) (n + 1)
          = n + countFailedResults (.error e :: rs)
      rw [ih (n + 1)]
      show n + 1 + countFailedResults rs
          = n + rs.foldl (fun m r => match r with | .error _ => m + 1 | .ok _ => m) 1
      rw [ih 1]
      omega
    | ok o =>
      show rs.foldl (fun m r => match r with | .error _ => m + 1 | .ok _ => m) n
          = n + countFailedResults (.ok o :: rs)
      rw [ih n]
      show n + countFailedResults rs
          = n + rs.foldl (fun m r => match r with | .error _ => m + 1 | .ok _ => m) 0
      rw [ih 0]
      omega

theorem countFailedResults_append (l1 l2 : List (Except String PUOutcome)) :
    countFailedResults (l1 ++ l2)
      = countFailedResults l1 + countFailedResults l2 := by
  unfold countFailedResults
  rw [List.foldl_append]
  exact countFailedResults_shift l2 _

/-- C6: the backoff wrapper around process_user retries a raised failure
with waits 1, 2, 4, ... seconds, makes at most max_tries = 5 attempts and
never accumulates max_time = 300 seconds of wait; a transport failure from
the generation collaborator surfaces to the wrapper as a raised exception;
an always-failing member exhausts exactly the 5 tries (after 15 seconds of
wait) or stops earlier at the time cap; and the batch is isolated — every
member task yields its own result, and an exhausted member contributes one
counted failure without disturbing the results of the other members. -/
theorem enrichment_retry_backoff :
    (∀ (attempt : Nat → Except String PUOutcome),
        (backoffRun 5 300 attempt).2.1 ≤ 5)
    ∧ (∀ (attempt : Nat → Except String PUOutcome),
        (backoffRun 5 300 attempt).2.2 < 300)
    ∧ (∀ (attempt : Nat → Except String PUOutcome),
        (∀ k, ∃ e, attempt k = .error e) →
          ∃ e, (backoffRun 5 300 attempt).1 = .error e)
    ∧ (∀ (store : List (Nat × Option RawAvatar)) (uid : Nat) (e : String),
        storeLookup store uid = none →
          (process_user store uid (.error e)).1 = .error e)
    ∧ backoffRun 5 1000 (fun _ => (.error "rate limit" : Except String PUOutcome))
        = (.error "rate limit", 5, 15)
    ∧ (backoffRun 5 3 (fun _ => (.error "rate limit" : Except String PUOutcome))).2.1
        = 2
    ∧ (∀ (pre post : List (Nat → Except String PUOutcome))
        (b : Nat → Except String PUOutcome),
        (pre ++ b :: post).map (fun f => (backoffRun 5 300 f).1)
          = pre.map (fun f => (backoffRun 5 300 f).1)
            ++ (backoffRun 5 300 b).1 :: post.map (fun f => (backoffRun 5 300 f).1))
    ∧ (∀ (rs1 rs2 : List (Except String PUOutcome)) (e : String),
        countFailedResults (rs1 ++ .error e :: rs2)
          = countFailedResults rs1 + countFailedResults rs2 + 1) := by
  refine ⟨?_, ?_, ?_, ?_, rfl, rfl, ?_, ?_⟩
  · intro attempt
    exact backoffAux_attempts_le attempt 300 5 0 0
  · intro attempt
    exact backoffAux_elapsed_lt attempt 300 5 0 0 (by norm_num)
  · intro attempt hfail
    exact backoffAux_all_fail attempt 300 hfail 5 0 0
  · intro store uid e h
    simp [process_user, h]
  · intro pre post b
    simp
  · intro rs1 rs2 e
    rw [countFailedResults_append]
    have h2 : countFailedResults (.error e :: rs2) = 1 + countFailedResults rs2 := by
      unfold countFailedResults
      rw [List.foldl_cons]
      exact countFailedResults_shift rs2 1
    rw [h2]
    omega

/-- Witness for C6 at a concrete always-failing member. -/
theorem enrichment_retry_backoff_witness :
    (process_user [] 7 (.error "rate limit")).1 = .error "rate limit"
    ∧ ∃ e, (backoffRun 5 300
        (fun _ => (.error "rate limit" : Except String PUOutcome))).1 = .error e :=
  ⟨enrichment_retry_backoff.2.2.2.1 [] 7 "rate limit" rfl,
   enrichment_retry_backoff.2.2.1 _ (fun _ => ⟨"rate limit", rfl⟩)⟩

/-- Witness for C10 at a concrete store holding one corrupt avatar file. -/
theorem corrupt_avatar_cache_permanent_failure_witness :
    process_user [(9, (none : Option RawAvatar))] 9 (.ok validRawAvatar)
      = (.error "JSONDecodeError", [(9, none)], 0) :=
  (corrupt_avatar_cache_permanent_failure [(9, none)] 9
      (fun _ => .ok validRawAvatar) rfl).1 (.ok validRawAvatar)

theorem estep_invariant {maxConcurrent : Nat} {s1 s2 : EnrichState}
    (h : EStep maxConcurrent s1 s2) (h1 : s1.inFlight ≤ s1.holders)
    (h2 : s1.holders ≤ maxConcurrent) :
    s2.inFlight ≤ s2.holders ∧ s2.holders ≤ maxConcurrent := by
  cases h with
  | startTask hp hh => exact ⟨Nat.le_succ_of_le h1, hh⟩
  | callStart hc => exact ⟨hc, h2⟩
  | callEnd hpos => exact ⟨Nat.le_trans (Nat.sub_le _ _) h1, h2⟩
  | release hc => exact ⟨Nat.le_pred_of_lt hc, Nat.le_trans (Nat.sub_le _ _) h2⟩

/-- C7: in every state the enrichment run can reach, the number of
generation calls in flight never exceeds the held semaphore slots, the
held slots never exceed maxConcurrent, and so at most maxConcurrent
generation calls are ever simultaneously active; in particular with
maxConcurrent = 2 and 10 members pending, never more than 2. -/
theorem enrichment_concurrency_bound :
    (∀ (maxConcurrent n : Nat) (s : EnrichState),
        EnrichReachable maxConcurrent n s →
          s.inFlight ≤ s.holders ∧ s.holders ≤ maxConcurrent
          ∧ s.inFlight ≤ maxConcurrent)
    ∧ (∀ (s : EnrichState), EnrichReachable 2 10 s → s.inFlight ≤ 2) := by
  have main : ∀ (maxConcurrent n : Nat) (s : EnrichState),
      EnrichReachable maxConcurrent n s →
        s.inFlight ≤ s.holders ∧ s.holders ≤ maxConcurrent := by
    intro maxConcurrent n s h
    induction h with
    | refl => exact ⟨Nat.le_refl 0, Nat.zero_le _⟩
    | tail _ hstep ih => exact estep_invariant hstep ih.1 ih.2
  constructor
  · intro maxConcurrent n s h
    obtain ⟨ha, hb⟩ := main maxConcurrent n s h
    exact ⟨ha, hb, Nat.le_trans ha hb⟩
  · intro s h
    obtain ⟨ha, hb⟩ := main 2 10 s h
    exact Nat.le_trans ha hb

/-- Witness for C7: the state with both slots held and both calls in
flight, reached from 10 pending members in four steps, respects the
bound. -/
theorem enrichment_concurrency_bound_witness :
    (⟨2, 2, 8⟩ : EnrichState).inFlight ≤ 2 :=
  enrichment_concurrency_bound.2 ⟨2, 2, 8⟩
    (Relation.ReflTransGen.tail
      (Relation.ReflTransGen.tail
        (Relation.ReflTransGen.tail
          (Relation.ReflTransGen.tail Relation.ReflTransGen.refl
            (EStep.startTask ⟨0, 0, 10⟩ (by decide) (by decide)))
          (EStep.startTask ⟨1, 0, 9⟩ (by decide) (by decide)))
        (EStep.callStart ⟨2, 0, 8⟩ (by decide)))
      (EStep.callStart ⟨2, 1, 8⟩ (by decide)))

/-- C8 counterexample: after a first harvester run in which member 3's
collaborator fetch raised (the member was skipped and nothing was cached),
a second run with the unchanged store performs 1 external collaborator
call, not 0 — so the claim that a second run of any stage over an
unchanged store performs zero additional collaborator calls is false. -/
theorem stage_idempotence_counterexample :
    (get_user_data
        (get_user_data [] (prof 3) (.raised "timeout") sampleRepliesFor 5).2.1
        (prof 3) (.raised "timeout") sampleRepliesFor 5).2.2 = 1
    ∧ ¬ ((get_user_data
        (get_user_data [] (prof 3) (.raised "timeout") sampleRepliesFor 5).2.1
        (prof 3) (.raised "timeout") sampleRepliesFor 5).2.2 = 0) := by
  exact ⟨by decide, by decide⟩

/-- C8 (amended): every stage is a cache memo for completed work — when a
stage's key holds an artifact the stage returns it with the store unchanged
and zero collaborator calls, and a second run after a first run that
completed its work (any collector or merger run, a harvester run that
returned an artifact, an enrichment run that ended in a verified cache hit
or a persisted success) returns the same artifact with the same store and
zero collaborator calls. A member whose first run failed is re-attempted
with new collaborator calls, as the counterexample shows. -/
theorem stage_idempotence_completed_work :
    (∀ (store : List (String × List Identity)) (key : String)
        (a fetched : List Identity),
        storeLookup store key = some a →
          get_followers store key fetched = (a, store, 0))
    ∧ (∀ (store : List (String × List Identity)) (key : String)
        (f1 f2 : List Identity),
        get_followers (get_followers store key f1).2.1 key f2
          = ((get_followers store key f1).1, (get_followers store key f1).2.1, 0))
    ∧ (∀ (store : List (String × List Identity)) (key : String)
        (fw fl : List Identity) (t : Identity) (b : Bool) (a : List Identity),
        storeLookup store key = some a →
          get_follow_all_stage store key fw fl t b = (a, store, 0))
    ∧ (∀ (store : List (String × List Identity)) (key : String)
        (fw fl fw2 fl2 : List Identity) (t t2 : Identity) (b b2 : Bool),
        get_follow_all_stage (get_follow_all_stage store key fw fl t b).2.1
            key fw2 fl2 t2 b2
          = ((get_follow_all_stage store key fw fl t b).1,
             (get_follow_all_stage store key fw fl t b).2.1, 0))
    ∧ (∀ (store : List (Nat × MemberArtifact)) (p : Profile) (f : FetchOutcome)
        (repliesFor : Nat → List Reply) (l : Int) (a : MemberArtifact),
        storeLookup store p.id = some a →
          get_user_data store p f repliesFor l = (some a, store, 0))
    ∧ (∀ (store : List (Nat × MemberArtifact)) (p : Profile)
        (f f2 : FetchOutcome) (rf rf2 : Nat → List Reply) (l l2 : Int)
        (a : MemberArtifact),
        (get_user_data store p f rf l).1 = some a →
          get_user_data (get_user_data store p f rf l).2.1 p f2 rf2 l2
            = (some a, (get_user_data store p f rf l).2.1, 0))
    ∧ (∀ (store : List (Nat × Option RawAvatar)) (uid : Nat)
        (resp : Except String RawAvatar) (a : RawAvatar),
        storeLookup store uid = some (some a) →
          process_user store uid resp = (.ok .cachedDone, store, 0))
    ∧ (∀ (store : List (Nat × Option RawAvatar)) (uid : Nat)
        (resp resp2 : Except String RawAvatar),
        ((process_user store uid resp).1 = .ok .cachedDone
          ∨ ∃ a, (process_user store uid resp).1 = .ok (.succeeded a)) →
          process_user (process_user store uid resp).2.1 uid resp2
            = (.ok .cachedDone, (process_user store uid resp).2.1, 0)) := by
  refine ⟨?_, ?_, ?_, ?_, ?_, ?_, ?_, ?_⟩
  · intro store key a fetched h
    simp [get_followers, h]
  · intro store key f1 f2
    cases h : storeLookup store key with
    | some a => simp [get_followers, h]
    | none => simp [get_followers, h, storeLookup_storeWrite]
  · intro store key fw fl t b a h
    simp [get_follow_all_stage, h]
  · intro store key fw fl fw2 fl2 t t2 b b2
    cases h : storeLookup store key with
    | some a => simp [get_follow_all_stage, h]
    | none => simp [get_follow_all_stage, h, storeLookup_storeWrite]
  · intro store p f repliesFor l a h
    simp [get_user_data, h]
  · intro store p f f2 rf rf2 l l2 a h1
    cases h : storeLookup store p.id with
    | some c =>
      have hc : c = a := by
        simpa [get_user_data, h] using h1
      subst hc
      simp [get_user_data, h]
    | none =>
      cases f with
      | raised msg => simp [get_user_data, h] at h1
      | fetched tweets =>
        have hart :
            ({ profile := p,
               tweets := tweets.map (processTweet rf l) } : MemberArtifact) = a := by
          simpa [get_user_data, h] using h1
        simp [get_user_data, h, storeLookup_storeWrite, hart]
  · intro store uid resp a h
    simp [process_user, h]
  · intro store uid resp resp2 h1
    cases h : storeLookup store uid with
    | some av =>
      cases av with
      | some x => simp [process_user, h]
      | none =>
        exfalso
        rcases h1 with h1 | ⟨a, h1⟩ <;> simp [process_user, h] at h1
    | none =>
      cases resp with
      | error e =>
        exfalso
        rcases h1 with h1 | ⟨a, h1⟩ <;> simp [process_user, h] at h1
      | ok raw =>
        cases h2 : normalizeAvatar raw with
        | error e =>
          exfalso
          rcases h1 with h1 | ⟨a, h1⟩ <;> simp [process_user, h, h2] at h1
        | ok nraw =>
          by_cases h3 : validateAvatar nraw = true
          · have hs1 : (process_user store uid (.ok raw)).2.1
                = storeWrite store uid (some nraw) := by
              simp only [process_user, h, h2]
              rw [if_pos h3]
            rw [hs1]
            simp [process_user, storeLookup_storeWrite]
          · exfalso
            rcases h1 with h1 | ⟨a, h1⟩ <;>
              · simp only [process_user, h, h2] at h1
                rw [if_neg h3] at h1
                simp at h1

theorem insertByDateDesc_perm (t : Tweet) (l : List Tweet) :
    List.Perm (insertByDateDesc t l) (t :: l) := by
  induction l with
  | nil => exact List.Perm.refl _
  | cons u us ih =>
    have hd : insertByDateDesc t (u :: us)
        = if u.date ≤ t.date then t :: u :: us else u :: insertByDateDesc t us := rfl
    by_cases h : u.date ≤ t.date
    · rw [hd, if_pos h]
    · rw [hd, if_neg h]
      exact (List.Perm.cons u ih).trans (List.Perm.swap t u us)

theorem sortByDateDesc_perm : ∀ l : List Tweet, List.Perm (sortByDateDesc l) l := by
  intro l
  induction l with
  | nil => exact List.Perm.refl _
  | cons t ts ih =>
    exact (insertByDateDesc_perm t (sortByDateDesc ts)).trans (List.Perm.cons t ih)

theorem renderRepliesLoop_count (minR : Int) :
    ∀ rs : List Reply,
      (renderRepliesLoop minR rs).2
        = (rs.filter (fun r => decide (minR ≤ r.likeCount))).length := by
  intro rs
  induction rs with
  | nil => rfl
  | cons r rs ih =>
    by_cases h : minR ≤ r.likeCount
    · simp [renderRepliesLoop, h, List.filter_cons, ih]
    · simp [renderRepliesLoop, h, List.filter_cons, ih]

theorem renderPostsLoop_posts_count (username : String) (minP minR : Int) :
    ∀ ts : List Tweet,
      (renderPostsLoop username minP minR ts).2.1
        = (ts.filter (fun t => decide (minP ≤ t.likeCount))).length := by
  intro ts
  induction ts with
  | nil => rfl
  | cons t ts ih =>
    by_cases h : minP ≤ t.likeCount
    · simp [renderPostsLoop, h, List.filter_cons, ih]
    · simp [renderPostsLoop, h, List.filter_cons, ih]

theorem renderPostsLoop_all_below (username : String) (minP minR : Int) :
    ∀ ts : List Tweet, (∀ t ∈ ts, t.likeCount < minP) →
      renderPostsLoop username minP minR ts = ("", 0, 0) := by
  intro ts
  induction ts with
  | nil => intro _; rfl
  | cons t ts ih =>
    intro h
    have ht : ¬ (minP ≤ t.likeCount) := by
      have := h t (List.mem_cons_self t ts)
      omega
    simp [renderPostsLoop, ht, ih (fun u hu => h u (List.mem_cons_of_mem t hu))]

theorem renderMember_all_below (a : MemberArtifact) (minP minR : Int)
    (h : ∀ t ∈ a.tweets, t.likeCount < minP) :
    (renderMember a minP minR).1 = renderProfileHeader a.profile
    ∧ (renderMember a minP minR).2.1 = 0 := by
  have hall : ∀ t ∈ sortByDateDesc a.tweets, t.likeCount < minP := by
    intro t ht
    exact h t ((sortByDateDesc_perm a.tweets).mem_iff.mp ht)
  have hz := renderPostsLoop_all_below a.profile.username minP minR
    (sortByDateDesc a.tweets) hall
  constructor
  · show renderProfileHeader a.profile
        ++ (renderPostsLoop a.profile.username minP minR (sortByDateDesc a.tweets)).1
      = renderProfileHeader a.profile
    rw [hz]
    simp
  · show (renderPostsLoop a.profile.username minP minR (sortByDateDesc a.tweets)).2.1
      = 0
    rw [hz]

theorem storeLookup_aggregate_fold (minP minR : Int) :
    ∀ (entries : List (Nat × MemberArtifact))
      (acc : List ((Nat × Bool) × FileEntry)) (uid : Nat),
      storeLookup
        (entries.foldl
          (fun acc ua =>
            storeWrite acc (ua.1, true) (.mdEntry (renderMember ua.2 minP minR).1))
          acc) (uid, false)
        = storeLookup acc (uid, false) := by
  intro entries
  induction entries with
  | nil => intro acc uid; rfl
  | cons ua rest ih =>
    intro acc uid
    rw [List.foldl_cons, ih]
    rw [storeLookup_storeWrite]
    have hne : ¬ ((ua.1, true) = (uid, false)) := by simp
    rw [if_neg hne]

/-- C9: aggregate_to_markdown is a pure display filter — it never changes
any stored JSON member artifact (it only writes markdown files); a post is
counted into the render exactly when its likeCount reaches
min_likes_posts, and a reply exactly when its likeCount reaches
min_likes_replies; and when no post reaches the threshold (for example
min_likes_posts = 100 over an artifact with no 100-like post) the rendered
document is exactly the profile header — an empty but valid section —
while the stored artifact still holds all original posts. -/
theorem projection_display_filter :
    (∀ (s : List ((Nat × Bool) × FileEntry)) (minP minR : Int) (uid : Nat),
        storeLookup (aggregate_to_markdown s minP minR) (uid, false)
          = storeLookup s (uid, false))
    ∧ (∀ (a : MemberArtifact) (minP minR : Int),
        (renderMember a minP minR).2.1
          = (a.tweets.filter (fun t => decide (minP ≤ t.likeCount))).length)
    ∧ (∀ (minR : Int) (rs : List Reply),
        (renderRepliesLoop minR rs).2
          = (rs.filter (fun r => decide (minR ≤ r.likeCount))).length)
    ∧ (∀ (a : MemberArtifact) (minP minR : Int),
        (∀ t ∈ a.tweets, t.likeCount < minP) →
          (renderMember a minP minR).1 = renderProfileHeader a.profile
          ∧ (renderMember a minP minR).2.1 = 0)
    ∧ (∀ (s : List ((Nat × Bool) × FileEntry)) (uid : Nat) (a : MemberArtifact),
        storeLookup s (uid, false) = some (.jsonEntry a) →
        (∀ t ∈ a.tweets, t.likeCount < 100) →
          storeLookup (aggregate_to_markdown s 100 2) (uid, false)
            = some (.jsonEntry a)
          ∧ (renderMember a 100 2).1 = renderProfileHeader a.profile) := by
  refine ⟨?_, ?_, ?_, ?_, ?_⟩
  · intro s minP minR uid
    exact storeLookup_aggregate_fold minP minR (jsonEntriesOf s) s uid
  · intro a minP minR
    show (renderPostsLoop a.profile.username minP minR (sortByDateDesc a.tweets)).2.1
      = _
    rw [renderPostsLoop_posts_count]
    exact ((sortByDateDesc_perm a.tweets).filter _).length_eq
  · intro minR rs
    exact renderRepliesLoop_count minR rs
  · intro a minP minR h
    exact renderMember_all_below a minP minR h
  · intro s uid a h1 h2
    constructor
    · exact (storeLookup_aggregate_fold 100 2 (jsonEntriesOf s) s uid).trans h1
    · exact (renderMember_all_below a 100 2 h2).1

/-- Witness for C9 at a concrete one-post artifact below the threshold. -/
theorem projection_display_filter_witness :
    (renderMember sampleArtifact 100 2).1 = renderProfileHeader (prof 1)
    ∧ (renderMember sampleArtifact 100 2).2.1 = 0 :=
  projection_display_filter.2.2.2.1 sampleArtifact 100 2 (by decide)

/-- Witness for C8 (amended): a concrete collector cache hit, and a second
enrichment run after a persisted success that verifies the cache with no
generation call. -/
theorem stage_idempotence_completed_work_witness :
    get_followers [("k", [(⟨1, "f"⟩ : Identity)])] "k" []
      = ([⟨1, "f"⟩], [("k", [⟨1, "f"⟩])], 0)
    ∧ process_user (process_user [] 7 (.ok validRawAvatar)).2.1 7
        (.ok validRawAvatar)
      = (.ok .cachedDone, (process_user [] 7 (.ok validRawAvatar)).2.1, 0) :=
  ⟨stage_idempotence_completed_work.1 [("k", [⟨1, "f"⟩])] "k" [⟨1, "f"⟩] [] rfl,
   stage_idempotence_completed_work.2.2.2.2.2.2.2 [] 7 (.ok validRawAvatar)
     (.ok validRawAvatar) (Or.inr ⟨validRawAvatarNorm, rfl⟩)⟩

end Xscrape
